import Mathlib

/-!
Shallow embedding of the Reporting Query Service in `src/app.py`.

The MongoDB collection is modelled as a `List Transaction` in natural storage
order.  Each HTTP endpoint of the source becomes a pure function from the
collection and its query parameters to `Except HTTPError result`, where an
`HTTPError` models the `HTTPException(status_code, detail)` raised by the
endpoint's `except` handler.  External collaborators (the MongoDB query
evaluator, Python's `float` and `datetime` builtins) are modelled by
executable Lean functions whose doc comments state exactly what is covered.
-/

namespace App

/-- Timestamps as stored in `dateOfSale` and built by Python's
`datetime(year, month, day)`.  Time-of-day fields are omitted: every
comparison performed by the source is against a first-of-month midnight
boundary, and the lexicographic order on (year, month, day) decides
`$gte`/`$lt` against such a boundary exactly as the full timestamp order
does (any time-of-day on a given day compares the same way against a
midnight boundary of a different day, and a record timestamped exactly at
the boundary is on the boundary's day with time fields zero or later). -/
structure DateTime where
  year : Int
  month : Int
  day : Int
  deriving DecidableEq

/-- Strict order on timestamps, lexicographic on (year, month, day);
models the BSON date order used by Mongo's `$lt`. -/
def dtLt (a b : DateTime) : Bool :=
  if a.year ≠ b.year then decide (a.year < b.year)
  else if a.month ≠ b.month then decide (a.month < b.month)
  else decide (a.day < b.day)

/-- Non-strict order on timestamps; models Mongo's `$gte` (as `dtLe s d`). -/
def dtLe (a b : DateTime) : Bool := !dtLt b a

/-- The stored transaction record (the `Transaction` pydantic model of the
source).  `price` is Python's float; it is modelled as an exact rational. -/
structure Transaction where
  id : Int
  title : String
  price : Rat
  description : String
  category : String
  image : String
  sold : Bool
  dateOfSale : DateTime
  deriving DecidableEq

/-- Models `fastapi.HTTPException(status_code=..., detail=...)`. -/
structure HTTPError where
  status : Nat
  detail : String
  deriving DecidableEq

/-- Value of a list of decimal digit characters, most significant first. -/
def digitsVal (ds : List Char) : Nat :=
  ds.foldl (fun acc c => acc * 10 + (c.toNat - 48)) 0

/-- Splits a character list into its longest prefix of decimal digits and
the remainder. -/
def spanDigits : List Char → List Char × List Char
  | [] => ([], [])
  | c :: r =>
    if c.isDigit then
      let p := spanDigits r
      (c :: p.1, p.2)
    else ([], c :: r)

/-- Modelled from the spec: Python's builtin `float(search)` (line 90 of
`src/app.py`) is external library code.  The model parses an optional sign,
decimal digits with an optional fractional part and an optional decimal
exponent, and returns the exact rational value of the literal; it returns
`none` where Python raises `ValueError`.  Surrounding whitespace, digit
group underscores and the special values inf and nan are outside the model
(they cannot be represented in `Rat`), as is binary rounding of the exact
decimal value to IEEE double. -/
def pyFloat (s : String) : Option Rat :=
  let cs := s.toList
  let sp : Rat × List Char :=
    match cs with
    | '+' :: r => (1, r)
    | '-' :: r => (-1, r)
    | r => (1, r)
  let ip := spanDigits sp.2
  let fr : List Char × List Char :=
    match ip.2 with
    | '.' :: r => spanDigits r
    | r => ([], r)
  if ip.1.isEmpty && fr.1.isEmpty then none
  else
    let mant : Rat :=
      sp.1 * ((digitsVal ip.1 : Rat) + (digitsVal fr.1 : Rat) / ((10 : Rat) ^ fr.1.length))
    match fr.2 with
    | [] => some mant
    | c :: r1 =>
      if c == 'e' || c == 'E' then
        let es : Bool × List Char :=
          match r1 with
          | '+' :: r3 => (true, r3)
          | '-' :: r3 => (false, r3)
          | r3 => (true, r3)
        let ed := spanDigits es.2
        if ed.1.isEmpty then none
        else if !ed.2.isEmpty then none
        else if es.1 then some (mant * (10 : Rat) ^ digitsVal ed.1)
        else some (mant / (10 : Rat) ^ digitsVal ed.1)
      else none

/-- Tests whether `p` is an initial segment of `h` (helper for the
substring search that models the regex filter). -/
def isPre : List Char → List Char → Bool
  | [], _ => true
  | _ :: _, [] => false
  | p :: ps, h :: hs => p == h && isPre ps hs

/-- Tests whether `pat` occurs contiguously anywhere inside `hay`. -/
def subSearch (pat : List Char) : List Char → Bool
  | [] => isPre pat []
  | c :: t => isPre pat (c :: t) || subSearch pat t

/-- The characters of `s`, lowercased (ASCII case folding, as performed by
`Char.toLower`). -/
def lowerChars (s : String) : List Char := s.toList.map Char.toLower

/-- Modelled from the spec: the evaluation of
`{"$regex": search, "$options": "i"}` (lines 88-89 of `src/app.py`) happens
inside MongoDB, an external collaborator.  For a pattern that contains no
regex metacharacters — the reading the spec gives the filter — the regex
matches a field exactly when the pattern occurs case-insensitively as a
contiguous substring of the field, which is what this function computes.
Patterns that use regex metacharacters are outside the model. -/
def regexMatchCI (pat field : String) : Bool :=
  subSearch (lowerChars pat) (lowerChars field)

/-- The `$or` filter built on lines 86-92 of `src/app.py`, applied to one
record: case-insensitive regex on `title`, or on `description`, or `price`
equal to the parsed search number. -/
def query_matches (s : String) (v : Rat) (t : Transaction) : Bool :=
  regexMatchCI s t.title || regexMatchCI s t.description || (t.price == v)

/-- Query construction plus `collection.find(query)` of
`list_transactions` (lines 84-94): `if search:` is Python truthiness, so
`none` and the empty string both yield the empty match-all query; a
non-empty search string is parsed by `float(search)` while the query dict
is built, and a parse failure raises `ValueError`, which the handler turns
into a 500 error (the message models `str(ValueError)` without Python's
quoting of the offending string). -/
def runQuery (coll : List Transaction) (search : Option String) :
    Except HTTPError (List Transaction) :=
  match search with
  | some s =>
    if s == "" then .ok coll
    else
      match pyFloat s with
      | none => .error ⟨500, "could not convert string to float: " ++ s⟩
      | some v => .ok (coll.filter (query_matches s v))
  | none => .ok coll

/-- The cursor chain
`skip((page - 1) * page_size).limit(page_size).to_list(page_size)` of line
94 of `src/app.py`, applied to the records matching the query: the driver
rejects a negative skip and a negative `to_list` length with a
`ValueError` (surfaced as a 500 by the handler); otherwise it skips
`(page-1)*page_size` records and takes at most `page_size`. -/
def paginate_slice (flt : List Transaction) (page page_size : Int) :
    Except HTTPError (List Transaction) :=
  if (page - 1) * page_size < 0 then
    .error ⟨500, "skip must be greater than or equal to 0"⟩
  else if page_size < 0 then .error ⟨500, "length must be a non-negative integer"⟩
  else .ok ((flt.drop ((page - 1) * page_size).toNat).take page_size.toNat)

/-- `list_transactions` (lines 77-100 of `src/app.py`): run the query, then
paginate its result. -/
def list_transactions (coll : List Transaction) (search : Option String)
    (page : Int) (page_size : Int) : Except HTTPError (List Transaction) :=
  match runQuery coll search with
  | .error e => .error e
  | .ok flt => paginate_slice flt page page_size

/-- Modelled from the spec: Python's `datetime(year, month, day)`
constructor (external library code) validates its arguments and raises
`ValueError("month must be in 1..12")` for a month outside 1..12.  The
callers in `src/app.py` always pass `day = 1`, so day-of-month validation
never fires and is not modelled; the year-range check (Python restricts
years to 1..9999) is likewise outside the model, which treats years as
unbounded integers. -/
def mkDatetime (year month day : Int) : Except String DateTime :=
  if month < 1 ∨ 12 < month then .error "month must be in 1..12"
  else .ok ⟨year, month, day⟩

/-- The month-interval computation repeated verbatim in `get_statistics`
(lines 106-110), `get_bar_chart` (lines 132-136) and `get_pie_chart`
(lines 159-163): `start_date = datetime(year, month, 1)`, and
`end_date = datetime(year + 1, 1, 1)` when `month == 12`, else
`datetime(year, month + 1, 1)`. -/
def monthRange (month year : Int) : Except String (DateTime × DateTime) := do
  let start_date ← mkDatetime year month 1
  let end_date ←
    if month = 12 then mkDatetime (year + 1) 1 1
    else mkDatetime year (month + 1) 1
  pure (start_date, end_date)

/-- The date clause `{"dateOfSale": {"$gte": start, "$lt": end}}` shared by
the three aggregation endpoints, applied to one record. -/
def inRange (s e : DateTime) (t : Transaction) : Bool :=
  dtLe s t.dateOfSale && dtLt t.dateOfSale e

/-- The match filter `{"sold": True, "dateOfSale": {"$gte": s, "$lt": e}}`. -/
def soldInRange (s e : DateTime) (t : Transaction) : Bool :=
  t.sold && inRange s e t

/-- The match filter `{"sold": False, "dateOfSale": {"$gte": s, "$lt": e}}`. -/
def unsoldInRange (s e : DateTime) (t : Transaction) : Bool :=
  !t.sold && inRange s e t

/-- Response body of `get_statistics`. -/
structure Stats where
  total_sales : Rat
  total_items_sold : Nat
  total_items_not_sold : Nat
  deriving DecidableEq

/-- `get_statistics` (lines 104-126 of `src/app.py`).  The `$match` and
`$group` aggregation yields no group document when no record matches and a
single group holding the `$sum` of `price` otherwise; the code then takes
`total_sales[0]["total_sales"] if total_sales else 0`.  The two
`count_documents` calls count the records matching their filters. -/
def get_statistics (coll : List Transaction) (month year : Int) :
    Except HTTPError Stats :=
  match monthRange month year with
  | .error msg => .error ⟨500, msg⟩
  | .ok (start_date, end_date) =>
    let groups : List Rat :=
      if (coll.filter (soldInRange start_date end_date)).isEmpty then []
      else [((coll.filter (soldInRange start_date end_date)).map Transaction.price).sum]
    let total_sales : Rat := match groups with | [] => 0 | g :: _ => g
    let total_items_sold : Nat := coll.countP (soldInRange start_date end_date)
    let total_items_not_sold : Nat := coll.countP (unsoldInRange start_date end_date)
    .ok ⟨total_sales, total_items_sold, total_items_not_sold⟩

/-- Identifier of a `$bucket` output document: the numeric lower boundary
of the bucket, or the configured default `"Other"`. -/
inductive BucketId where
  | num (lower : Rat)
  | other
  deriving DecidableEq

/-- One document of the bar-chart response: `{"_id": key, "count": n}`. -/
structure BarEntry where
  key : BucketId
  count : Nat
  deriving DecidableEq

/-- The `$bucket` boundaries `[0, 100, ..., 900, float("inf")]` of line 142
of `src/app.py`, as consecutive half-open ranges: each pair is a lower
bound with the next boundary as optional exclusive upper bound, `none`
standing for the infinite upper bound (every finite price is below it). -/
def bucketRanges : List (Rat × Option Rat) :=
  [(0, some 100), (100, some 200), (200, some 300), (300, some 400),
   (400, some 500), (500, some 600), (600, some 700), (700, some 800),
   (800, some 900), (900, none)]

/-- Whether a price falls in one half-open bucket range (inclusive lower
bound, exclusive upper bound, as `$bucket` specifies). -/
def inBucket (p : Rat) (r : Rat × Option Rat) : Bool :=
  decide (r.1 ≤ p) &&
    match r.2 with
    | some u => decide (p < u)
    | none => true

/-- `get_bar_chart` (lines 130-153 of `src/app.py`): match the sold
records of the month, then `$bucket` them by `price`.  Mongo emits one
output document per non-empty bucket, in boundary order, and one document
with `_id` equal to the default `"Other"` (ordered after the numeric ids)
collecting the records that fall in no bucket, when any exist. -/
def get_bar_chart (coll : List Transaction) (month year : Int) :
    Except HTTPError (List BarEntry) :=
  match monthRange month year with
  | .error msg => .error ⟨500, msg⟩
  | .ok (start_date, end_date) =>
    let matched := coll.filter (soldInRange start_date end_date)
    let fixedBuckets : List BarEntry := bucketRanges.filterMap fun r =>
      if (matched.filter fun t => inBucket t.price r).length = 0 then none
      else some ⟨BucketId.num r.1, (matched.filter fun t => inBucket t.price r).length⟩
    let otherCount :=
      (matched.filter fun t => bucketRanges.all fun r => !inBucket t.price r).length
    .ok (fixedBuckets ++ if otherCount = 0 then [] else [⟨BucketId.other, otherCount⟩])

/-- One document of the pie-chart response: `{"_id": category, "count": n}`. -/
structure PieEntry where
  key : String
  count : Nat
  deriving DecidableEq

/-- `get_pie_chart` (lines 156-173 of `src/app.py`): match every record of
the month (sold or not) and `$group` by `category`, counting with
`{"$sum": 1}`.  Mongo's group order is unspecified; the model emits the
distinct categories in order of first occurrence. -/
def get_pie_chart (coll : List Transaction) (month year : Int) :
    Except HTTPError (List PieEntry) :=
  match monthRange month year with
  | .error msg => .error ⟨500, msg⟩
  | .ok (start_date, end_date) =>
    let matched := coll.filter (inRange start_date end_date)
    let cats := (matched.map Transaction.category).dedup
    .ok (cats.map fun c => ⟨c, matched.countP fun t => t.category == c⟩)

/-- Response body of `get_combined_data`. -/
structure Combined where
  transactions : List Transaction
  statistics : Stats
  bar_chart : List BarEntry
  pie_chart : List PieEntry
  deriving DecidableEq

/-- An `HTTPException` escaping a sub-call of `get_combined_data` is caught
by the outer handler and re-raised as `HTTPException(500, str(e))`, where
`str` of an `HTTPException` is `"{status_code}: {detail}"`. -/
def wrap500 (e : HTTPError) : HTTPError :=
  ⟨500, toString e.status ++ ": " ++ e.detail⟩

/-- `get_combined_data` (lines 176-190 of `src/app.py`): call
`list_transactions(page=1, page_size=10)` (search defaults to `None`),
`get_statistics`, `get_bar_chart` and `get_pie_chart` in order, and
assemble the four results; the first failing sub-call aborts the whole
response. -/
def get_combined_data (coll : List Transaction) (month year : Int) :
    Except HTTPError Combined :=
  match list_transactions coll none 1 10 with
  | .error e => .error (wrap500 e)
  | .ok transactions =>
    match get_statistics coll month year with
    | .error e => .error (wrap500 e)
    | .ok statistics =>
      match get_bar_chart coll month year with
      | .error e => .error (wrap500 e)
      | .ok bar_chart =>
        match get_pie_chart coll month year with
        | .error e => .error (wrap500 e)
        | .ok pie_chart => .ok ⟨transactions, statistics, bar_chart, pie_chart⟩

/-- Specification-level reading of the search filter: the pattern occurs
case-insensitively as a contiguous substring of the field. -/
def substrOccursCI (pat hay : String) : Prop :=
  ∃ l r, lowerChars hay = l ++ lowerChars pat ++ r

lemma monthRange_eq (month year : Int) (h1 : 1 ≤ month) (h2 : month ≤ 12) :
    monthRange month year =
      Except.ok (⟨year, month, 1⟩,
        if month = 12 then ⟨year + 1, 1, 1⟩ else ⟨year, month + 1, 1⟩) := by
  have hc : ¬(month < 1 ∨ 12 < month) := by omega
  by_cases hm : month = 12
  · subst hm
    simp [monthRange, mkDatetime, Bind.bind, Except.bind, pure, Except.pure]
  · simp only [monthRange, mkDatetime, hc, hm, Bind.bind, Except.bind, pure,
      Except.pure, if_false, if_neg]
    rw [if_neg (show ¬(month + 1 < 1 ∨ 12 < month + 1) by omega)]

/-- C4: for a valid month, the interval computed by the statistics,
bar-chart and pie-chart endpoints (all of which evaluate `monthRange`)
starts on the first of the month, and its exclusive end is January 1 of
the next year for December and the first of the next month otherwise. -/
theorem date_rollover_spec (year month : Int) (h1 : 1 ≤ month) (h2 : month ≤ 12) :
    (month = 12 → monthRange month year = Except.ok (⟨year, 12, 1⟩, ⟨year + 1, 1, 1⟩)) ∧
    (month < 12 → monthRange month year = Except.ok (⟨year, month, 1⟩, ⟨year, month + 1, 1⟩)) := by
  constructor
  · intro hm
    subst hm
    rw [monthRange_eq 12 year h1 h2]
    simp
  · intro hm
    rw [monthRange_eq month year h1 h2]
    simp [show month ≠ 12 by omega]

/-- Witness for `date_rollover_spec` at month 12 and month 11 of 2022. -/
theorem date_rollover_spec_witness :
    monthRange 12 2022 = Except.ok (⟨2022, 12, 1⟩, ⟨2023, 1, 1⟩) ∧
    monthRange 11 2022 = Except.ok (⟨2022, 11, 1⟩, ⟨2022, 12, 1⟩) :=
  ⟨(date_rollover_spec 2022 12 (by norm_num) (by norm_num)).1 rfl,
   (date_rollover_spec 2022 11 (by norm_num) (by norm_num)).2 (by norm_num)⟩

/-- C10: the empty search string is falsy in Python, so `list_transactions`
treats `search=""` exactly like an absent search string, for every page and
page size. -/
theorem empty_search_spec (coll : List Transaction) (page page_size : Int) :
    list_transactions coll (some "") page page_size =
      list_transactions coll none page page_size := rfl

/-- C3 counterexample: at month 13 the statistics endpoint fails with HTTP
500, a server error, not a client (4xx) error as the claim states. -/
theorem invalid_month_counterexample :
    get_statistics ([] : List Transaction) 13 2023 =
      Except.error ⟨500, "month must be in 1..12"⟩ ∧
    ¬(400 ≤ 500 ∧ 500 < 500) := by
  constructor
  · rfl
  · omega

/-- C3 amended: a month outside 1..12 makes the `datetime` constructor
raise, and the generic handler reports the failure as HTTP 500 (a server
error) whose detail is the descriptive message; the month is not silently
corrected. -/
theorem invalid_month_amended (coll : List Transaction) (month year : Int)
    (hm : month < 1 ∨ 12 < month) :
    get_statistics coll month year = Except.error ⟨500, "month must be in 1..12"⟩ := by
  unfold get_statistics monthRange mkDatetime
  rw [if_pos hm]
  rfl

/-- Witness for `invalid_month_amended` at month 13. -/
theorem invalid_month_amended_witness :
    get_statistics ([] : List Transaction) 13 2023 =
      Except.error ⟨500, "month must be in 1..12"⟩ :=
  invalid_month_amended [] 13 2023 (by norm_num)

/-- C8 counterexample: for the non-numeric search string "abc" the lister
does not succeed — `float("abc")` raises and the handler returns HTTP 500. -/
theorem float_error_counterexample :
    list_transactions ([] : List Transaction) (some "abc") 1 10 =
      Except.error ⟨500, "could not convert string to float: abc"⟩ := rfl

/-- C8 amended: a non-empty search string that does not parse as a number
makes the lister fail with HTTP 500 (the `ValueError` from `float(search)`
caught by the generic handler); the filter is never applied. -/
theorem float_error_amended (coll : List Transaction) (s : String)
    (page page_size : Int) (hs : s ≠ "") (hv : pyFloat s = none) :
    list_transactions coll (some s) page page_size =
      Except.error ⟨500, "could not convert string to float: " ++ s⟩ := by
  have h1 : runQuery coll (some s) =
      Except.error ⟨500, "could not convert string to float: " ++ s⟩ := by
    simp only [runQuery]
    rw [if_neg (by simpa using hs), hv]
  unfold list_transactions
  rw [h1]

/-- Witness for `float_error_amended` at search "abc". -/
theorem float_error_amended_witness :
    list_transactions ([] : List Transaction) (some "abc") 1 10 =
      Except.error ⟨500, "could not convert string to float: " ++ "abc"⟩ :=
  float_error_amended [] "abc" 1 10 (by decide) rfl

/-- C9: whenever the combined-data endpoint succeeds, its four fields are
exactly the results of the four direct calls — the lister with page 1,
page size 10 and no search string, and the three aggregations at the same
month and year. -/
theorem combined_spec (coll : List Transaction) (month year : Int) (c : Combined)
    (h : get_combined_data coll month year = Except.ok c) :
    list_transactions coll none 1 10 = Except.ok c.transactions ∧
    get_statistics coll month year = Except.ok c.statistics ∧
    get_bar_chart coll month year = Except.ok c.bar_chart ∧
    get_pie_chart coll month year = Except.ok c.pie_chart := by
  unfold get_combined_data at h
  cases hT : list_transactions coll none 1 10 with
  | error e => rw [hT] at h; exact absurd h (by simp)
  | ok tv =>
    rw [hT] at h
    cases hS : get_statistics coll month year with
    | error e => rw [hS] at h; exact absurd h (by simp)
    | ok sv =>
      rw [hS] at h
      cases hB : get_bar_chart coll month year with
      | error e => rw [hB] at h; exact absurd h (by simp)
      | ok bv =>
        rw [hB] at h
        cases hP : get_pie_chart coll month year with
        | error e => rw [hP] at h; exact absurd h (by simp)
        | ok pv =>
          rw [hP] at h
          cases Except.ok.inj h
          exact ⟨rfl, rfl, rfl, rfl⟩

/-- Witness for `combined_spec` on the empty collection, January 2023. -/
theorem combined_spec_witness :
    list_transactions ([] : List Transaction) none 1 10 = Except.ok ([] : List Transaction) ∧
    get_statistics ([] : List Transaction) 1 2023 = Except.ok ⟨0, 0, 0⟩ ∧
    get_bar_chart ([] : List Transaction) 1 2023 = Except.ok ([] : List BarEntry) ∧
    get_pie_chart ([] : List Transaction) 1 2023 = Except.ok ([] : List PieEntry) :=
  combined_spec [] 1 2023 ⟨[], ⟨0, 0, 0⟩, [], []⟩ (by rfl)

/-- C1: for a valid month, the statistics endpoint returns the sum of
`price` over the sold records of the month interval (0 when there are
none), the count of sold records in the interval, and the count of unsold
records in the interval. -/
theorem statistics_spec (coll : List Transaction) (month year : Int)
    (h1 : 1 ≤ month) (h2 : month ≤ 12) :
    ∃ s e, monthRange month year = Except.ok (s, e) ∧
      get_statistics coll month year = Except.ok
        ⟨((coll.filter (soldInRange s e)).map Transaction.price).sum,
          (coll.filter (soldInRange s e)).length,
          (coll.filter (unsoldInRange s e)).length⟩ ∧
      ((∀ t ∈ coll, inRange s e t = true → t.sold = false) →
        ∀ st, get_statistics coll month year = Except.ok st → st.total_sales = 0) := by
  refine ⟨⟨year, month, 1⟩,
    if month = 12 then ⟨year + 1, 1, 1⟩ else ⟨year, month + 1, 1⟩,
    monthRange_eq month year h1 h2, ?_⟩
  set s : DateTime := ⟨year, month, 1⟩ with hs
  set e : DateTime :=
    if month = 12 then ⟨year + 1, 1, 1⟩ else ⟨year, month + 1, 1⟩ with he
  have hmain : get_statistics coll month year = Except.ok
      ⟨((coll.filter (soldInRange s e)).map Transaction.price).sum,
        (coll.filter (soldInRange s e)).length,
        (coll.filter (unsoldInRange s e)).length⟩ := by
    unfold get_statistics
    rw [monthRange_eq month year h1 h2, ← hs, ← he]
    by_cases hE : (coll.filter (soldInRange s e)).isEmpty
    · have hnil : coll.filter (soldInRange s e) = [] := List.isEmpty_iff.mp hE
      simp [hE, hnil, List.countP_eq_length_filter]
    · simp [hE, List.countP_eq_length_filter]
  refine ⟨hmain, ?_⟩
  intro hno st hst
  rw [hmain] at hst
  cases Except.ok.inj hst
  have hnil : coll.filter (soldInRange s e) = [] := by
    refine List.filter_eq_nil_iff.mpr fun t ht hsold => ?_
    have h3 : t.sold = true ∧ inRange s e t = true := by
      simpa [soldInRange] using hsold
    have := hno t ht h3.2
    rw [this] at h3
    exact Bool.false_ne_true h3.1
  simp [hnil]

/-- Witness for `statistics_spec`: one sold and one unsold January-2023
record, queried at month 1 of 2023. -/
theorem statistics_spec_witness :
    ∃ s e, monthRange 1 2023 = Except.ok (s, e) ∧
      get_statistics
          [⟨1, "a", 50, "d", "c", "i", true, ⟨2023, 1, 15⟩⟩,
           ⟨2, "b", 150, "d", "c2", "i", false, ⟨2023, 1, 20⟩⟩]
          1 2023 = Except.ok
        ⟨(([⟨1, "a", 50, "d", "c", "i", true, ⟨2023, 1, 15⟩⟩,
            ⟨2, "b", 150, "d", "c2", "i", false, ⟨2023, 1, 20⟩⟩].filter (soldInRange s e)).map
              Transaction.price).sum,
          ([⟨1, "a", 50, "d", "c", "i", true, ⟨2023, 1, 15⟩⟩,
            ⟨2, "b", 150, "d", "c2", "i", false, ⟨2023, 1, 20⟩⟩].filter (soldInRange s e)).length,
          ([⟨1, "a", 50, "d", "c", "i", true, ⟨2023, 1, 15⟩⟩,
            ⟨2, "b", 150, "d", "c2", "i", false, ⟨2023, 1, 20⟩⟩].filter (unsoldInRange s e)).length⟩ ∧
      ((∀ t ∈ [⟨1, "a", 50, "d", "c", "i", true, ⟨2023, 1, 15⟩⟩,
               ⟨2, "b", 150, "d", "c2", "i", false, ⟨2023, 1, 20⟩⟩],
          inRange s e t = true → t.sold = false) →
        ∀ st, get_statistics
            [⟨1, "a", 50, "d", "c", "i", true, ⟨2023, 1, 15⟩⟩,
             ⟨2, "b", 150, "d", "c2", "i", false, ⟨2023, 1, 20⟩⟩]
            1 2023 = Except.ok st → st.total_sales = 0) :=
  statistics_spec
    [⟨1, "a", 50, "d", "c", "i", true, ⟨2023, 1, 15⟩⟩,
     ⟨2, "b", 150, "d", "c2", "i", false, ⟨2023, 1, 20⟩⟩]
    1 2023 (by norm_num) (by norm_num)

lemma isPre_iff (p : List Char) : ∀ h, isPre p h = true ↔ ∃ r, h = p ++ r := by
  induction p with
  | nil =>
    intro h
    simp [isPre]
  | cons c ps ih =>
    intro h
    cases h with
    | nil =>
      simp [isPre]
    | cons d hs2 =>
      simp only [isPre, Bool.and_eq_true, beq_iff_eq, ih]
      constructor
      · rintro ⟨hcd, r, hr⟩
        exact ⟨r, by rw [hcd, hr]; rfl⟩
      · rintro ⟨r, hr⟩
        injection hr with hh1 hh2
        exact ⟨hh1.symm, r, hh2⟩

lemma subSearch_iff (p : List Char) : ∀ h, subSearch p h = true ↔
    ∃ pre post, h = pre ++ p ++ post := by
  intro h
  induction h with
  | nil =>
    simp only [subSearch, isPre_iff]
    constructor
    · rintro ⟨r, hr⟩
      exact ⟨[], r, by simpa using hr⟩
    · rintro ⟨pre, post, hr⟩
      obtain ⟨h1, h23⟩ := List.append_eq_nil.mp hr.symm
      obtain ⟨h2, h3⟩ := List.append_eq_nil.mp h1
      exact ⟨[], by simp [h3]⟩
  | cons c t ih =>
    simp only [subSearch, Bool.or_eq_true, isPre_iff, ih]
    constructor
    · rintro (⟨r, hr⟩ | ⟨pre, post, hr⟩)
      · exact ⟨[], r, by simpa using hr⟩
      · exact ⟨c :: pre, post, by simp [hr]⟩
    · rintro ⟨pre, post, hr⟩
      cases pre with
      | nil => exact Or.inl ⟨post, by simpa using hr⟩
      | cons d pre2 =>
        right
        injection hr with hh1 hh2
        exact ⟨pre2, post, hh2⟩

lemma regexMatchCI_iff (pat field : String) :
    regexMatchCI pat field = true ↔ substrOccursCI pat field := by
  unfold regexMatchCI substrOccursCI
  exact subSearch_iff _ _

/-- C2 counterexample: the search string "abc" occurs as a substring of the
record's title, so the claim says the filter matches the record; but the
lister fails outright (the numeric clause `float("abc")` raises while the
query is being built), so no filter is ever applied. -/
theorem search_filter_counterexample :
    substrOccursCI "abc" "xABCy" ∧
    list_transactions [⟨1, "xABCy", 5, "d", "c", "i", true, ⟨2023, 1, 15⟩⟩]
        (some "abc") 1 10 =
      Except.error ⟨500, "could not convert string to float: abc"⟩ := by
  constructor
  · exact ⟨['x'], ['y'], by decide⟩
  · rfl

/-- C2 amended: for every non-empty search string that parses as a number
`v`, the filter matches a record exactly when the string occurs
case-insensitively in the title or the description, or the price equals
`v`; with no search string the filter is empty and every record matches.
(A non-empty string that does not parse makes the lister fail instead —
see the C8 theorems.) -/
theorem search_filter_amended (coll : List Transaction) (s : String) (v : Rat)
    (hs : s ≠ "") (hv : pyFloat s = some v) :
    (∀ t : Transaction, query_matches s v t = true ↔
      (substrOccursCI s t.title ∨ substrOccursCI s t.description ∨ t.price = v)) ∧
    runQuery coll (some s) = Except.ok (coll.filter (query_matches s v)) ∧
    runQuery coll none = Except.ok coll := by
  refine ⟨fun t => ?_, ?_, rfl⟩
  · unfold query_matches
    simp only [Bool.or_eq_true, beq_iff_eq, regexMatchCI_iff]
    exact or_assoc
  · simp only [runQuery]
    rw [if_neg (by simpa using hs), hv]

/-- Witness for `search_filter_amended` with the numeric search "150". -/
theorem search_filter_amended_witness :
    (∀ t : Transaction, query_matches "150" 150 t = true ↔
      (substrOccursCI "150" t.title ∨ substrOccursCI "150" t.description ∨
        t.price = 150)) ∧
    runQuery [] (some "150") =
      Except.ok (List.filter (query_matches "150" 150) []) ∧
    runQuery ([] : List Transaction) none = Except.ok [] :=
  search_filter_amended [] "150" 150 (by decide) (by with_unfolding_all rfl)

lemma get_statistics_eq (coll : List Transaction) (month year : Int)
    (s e : DateTime) (hmr : monthRange month year = Except.ok (s, e)) :
    get_statistics coll month year = Except.ok
      ⟨((coll.filter (soldInRange s e)).map Transaction.price).sum,
        coll.countP (soldInRange s e), coll.countP (unsoldInRange s e)⟩ := by
  unfold get_statistics
  rw [hmr]
  by_cases hE : (coll.filter (soldInRange s e)).isEmpty
  · have hnil := List.isEmpty_iff.mp hE
    simp [hE, hnil]
  · simp [hE]

lemma get_pie_chart_eq (coll : List Transaction) (month year : Int)
    (s e : DateTime) (hmr : monthRange month year = Except.ok (s, e)) :
    get_pie_chart coll month year = Except.ok
      (((coll.filter (inRange s e)).map Transaction.category).dedup.map fun c =>
        ⟨c, (coll.filter (inRange s e)).countP fun t => t.category == c⟩) := by
  unfold get_pie_chart
  rw [hmr]

lemma countP_sold_split (s e : DateTime) (coll : List Transaction) :
    coll.countP (soldInRange s e) + coll.countP (unsoldInRange s e) =
      (coll.filter (inRange s e)).length := by
  rw [← List.countP_eq_length_filter]
  induction coll with
  | nil => rfl
  | cons t l ih =>
    by_cases hin : inRange s e t = true
    · by_cases hb : t.sold = true
      · simp [List.countP_cons, soldInRange, unsoldInRange, hin, hb]
        omega
      · have hb2 : t.sold = false := by
          revert hb
          cases t.sold <;> simp
        simp [List.countP_cons, soldInRange, unsoldInRange, hin, hb2]
        omega
    · have hin2 : inRange s e t = false := by
        revert hin
        cases inRange s e t <;> simp
      simp [List.countP_cons, soldInRange, unsoldInRange, hin2]
      omega

/-- C6: for a valid month, the pie chart groups every record of the month
interval (sold or not) by category, each record lands in exactly one
group, and the per-category counts add up to the total record count of the
interval, which is `total_items_sold + total_items_not_sold` from the
statistics endpoint. -/
theorem pie_chart_spec (coll : List Transaction) (month year : Int)
    (h1 : 1 ≤ month) (h2 : month ≤ 12) :
    ∃ s e entries st,
      monthRange month year = Except.ok (s, e) ∧
      get_pie_chart coll month year = Except.ok entries ∧
      get_statistics coll month year = Except.ok st ∧
      (entries.map PieEntry.count).sum = st.total_items_sold + st.total_items_not_sold ∧
      (entries.map PieEntry.count).sum = (coll.filter (inRange s e)).length ∧
      ∀ t ∈ coll.filter (inRange s e),
        entries.countP (fun g => g.key == t.category) = 1 := by
  have hmr := monthRange_eq month year h1 h2
  refine ⟨⟨year, month, 1⟩,
    if month = 12 then ⟨year + 1, 1, 1⟩ else ⟨year, month + 1, 1⟩, _, _,
    hmr, get_pie_chart_eq coll month year _ _ hmr,
    get_statistics_eq coll month year _ _ hmr, ?_, ?_, ?_⟩
  all_goals
    set s : DateTime := ⟨year, month, 1⟩ with hsdef
    set e : DateTime :=
      if month = 12 then ⟨year + 1, 1, 1⟩ else ⟨year, month + 1, 1⟩ with hedef
    set matched : List Transaction := coll.filter (inRange s e) with hmdef
  · -- sum of group counts = sold count + unsold count
    rw [List.map_map]
    have hcongr :
        ((matched.map Transaction.category).dedup.map
          (PieEntry.count ∘ fun c =>
            (⟨c, matched.countP fun t => t.category == c⟩ : PieEntry))) =
        ((matched.map Transaction.category).dedup.map fun c =>
          (matched.map Transaction.category).count c) := by
      refine List.map_congr_left fun c hc => ?_
      simp only [Function.comp, List.count_eq_countP, List.countP_map]
      exact List.countP_congr fun t ht => by simp
    rw [hcongr, List.sum_map_count_dedup_eq_length, List.length_map]
    exact (countP_sold_split s e coll).symm
  · -- sum of group counts = number of records in the interval
    rw [List.map_map]
    have hcongr :
        ((matched.map Transaction.category).dedup.map
          (PieEntry.count ∘ fun c =>
            (⟨c, matched.countP fun t => t.category == c⟩ : PieEntry))) =
        ((matched.map Transaction.category).dedup.map fun c =>
          (matched.map Transaction.category).count c) := by
      refine List.map_congr_left fun c hc => ?_
      simp only [Function.comp, List.count_eq_countP, List.countP_map]
      exact List.countP_congr fun t ht => by simp
    rw [hcongr, List.sum_map_count_dedup_eq_length, List.length_map]
  · -- every interval record is counted in exactly one group
    intro t ht
    rw [List.countP_map]
    have h5 : t.category ∈ (matched.map Transaction.category).dedup :=
      List.mem_dedup.mpr (List.mem_map_of_mem Transaction.category ht)
    have h6 := List.count_eq_one_of_mem (List.nodup_dedup _) h5
    rw [List.count_eq_countP] at h6
    simpa [Function.comp] using h6

/-- Witness for `pie_chart_spec`: two January-2023 records in distinct
categories, queried at month 1 of 2023. -/
theorem pie_chart_spec_witness :
    ∃ s e entries st,
      monthRange 1 2023 = Except.ok (s, e) ∧
      get_pie_chart
          [⟨1, "a", 50, "d", "c", "i", true, ⟨2023, 1, 15⟩⟩,
           ⟨2, "b", 150, "d", "c2", "i", false, ⟨2023, 1, 20⟩⟩] 1 2023 =
        Except.ok entries ∧
      get_statistics
          [⟨1, "a", 50, "d", "c", "i", true, ⟨2023, 1, 15⟩⟩,
           ⟨2, "b", 150, "d", "c2", "i", false, ⟨2023, 1, 20⟩⟩] 1 2023 =
        Except.ok st ∧
      (entries.map PieEntry.count).sum = st.total_items_sold + st.total_items_not_sold ∧
      (entries.map PieEntry.count).sum =
        ([⟨1, "a", 50, "d", "c", "i", true, ⟨2023, 1, 15⟩⟩,
          ⟨2, "b", 150, "d", "c2", "i", false, ⟨2023, 1, 20⟩⟩].filter (inRange s e)).length ∧
      ∀ t ∈ [⟨1, "a", 50, "d", "c", "i", true, ⟨2023, 1, 15⟩⟩,
             ⟨2, "b", 150, "d", "c2", "i", false, ⟨2023, 1, 20⟩⟩].filter (inRange s e),
        entries.countP (fun g => g.key == t.category) = 1 :=
  pie_chart_spec
    [⟨1, "a", 50, "d", "c", "i", true, ⟨2023, 1, 15⟩⟩,
     ⟨2, "b", 150, "d", "c2", "i", false, ⟨2023, 1, 20⟩⟩]
    1 2023 (by norm_num) (by norm_num)

lemma flatten_pages (l : List Transaction) (n : Nat) (k : Nat) :
    ((List.range k).map fun j => (l.drop (j * n)).take n).flatten = l.take (n * k) := by
  induction k with
  | zero => simp
  | succ k ih =>
    rw [List.range_succ, List.map_append, List.flatten_append, ih]
    simp only [List.map_cons, List.map_nil, List.flatten_cons, List.flatten_nil,
      List.append_nil]
    rw [Nat.mul_succ, List.take_add, Nat.mul_comm k n]

/-- C7: with the collection and filter fixed (`runQuery` succeeding with
`flt`), page `p` of size `n` is the slice that skips `(p-1)*n` records and
takes at most `n`; each page has length at most `n`; and the pages
`1..k` concatenate, in order, to exactly the result of a single page-1
request of size `n*k`. -/
theorem pagination_spec (coll : List Transaction) (search : Option String)
    (flt : List Transaction) (n : Int) (k : Nat) (hn : 0 < n)
    (hq : runQuery coll search = Except.ok flt) :
    (∀ page : Int, 1 ≤ page →
      list_transactions coll search page n =
        Except.ok ((flt.drop (((page - 1) * n).toNat)).take n.toNat)) ∧
    (∀ page : Int, ∀ r : List Transaction,
      list_transactions coll search page n = Except.ok r → r.length ≤ n.toNat) ∧
    ∃ pages : List (List Transaction), pages.length = k ∧
      (∀ j : Nat, (hj : j < pages.length) →
        list_transactions coll search ((j : Int) + 1) n =
          Except.ok (pages.get ⟨j, hj⟩)) ∧
      ∃ big, list_transactions coll search 1 (n * (k : Int)) = Except.ok big ∧
        pages.flatten = big := by
  have hok : ∀ page ps : Int,
      list_transactions coll search page ps = paginate_slice flt page ps := by
    intro page ps
    unfold list_transactions
    rw [hq]
  have hfirst : ∀ page : Int, 1 ≤ page →
      list_transactions coll search page n =
        Except.ok ((flt.drop (((page - 1) * n).toNat)).take n.toNat) := by
    intro page hp
    rw [hok page n]
    unfold paginate_slice
    rw [if_neg (not_lt.mpr (mul_nonneg (by omega) (by omega)))]
    rw [if_neg (not_lt.mpr (by omega))]
  refine ⟨hfirst, ?_, ?_⟩
  · intro page r hr
    rw [hok page n] at hr
    unfold paginate_slice at hr
    by_cases hskip : (page - 1) * n < 0
    · rw [if_pos hskip] at hr
      exact absurd hr (by simp)
    · rw [if_neg hskip, if_neg (not_lt.mpr (by omega : (0:Int) ≤ n))] at hr
      cases Except.ok.inj hr
      exact List.length_take_le _ _
  · obtain ⟨m, rfl⟩ : ∃ m : Nat, n = (m : Int) :=
      ⟨n.toNat, (Int.toNat_of_nonneg hn.le).symm⟩
    refine ⟨(List.range k).map fun j => (flt.drop (j * m)).take m, by simp, ?_, ?_⟩
    · intro j hj
      have hget : ((List.range k).map fun j => (flt.drop (j * m)).take m).get ⟨j, hj⟩
          = (flt.drop (j * m)).take m := by
        simp
      rw [hget, hfirst ((j : Int) + 1) (by omega)]
      have harith : (((j : Int) + 1 - 1) * (m : Int)).toNat = j * m := by
        have hcast : ((j : Int) + 1 - 1) * (m : Int) = ((j * m : Nat) : Int) := by
          push_cast
          ring
        rw [hcast, Int.toNat_ofNat]
      rw [harith]
      simp
    · refine ⟨flt.take (m * k), ?_, flatten_pages flt m k⟩
      rw [hok 1 ((m : Int) * (k : Int))]
      unfold paginate_slice
      have h0 : ((1:Int) - 1) * ((m : Int) * (k : Int)) = 0 := by ring
      rw [h0]
      rw [if_neg (lt_irrefl (0:Int))]
      rw [if_neg (not_lt.mpr (by positivity : (0:Int) ≤ (m : Int) * (k : Int)))]
      have hmk : ((m : Int) * (k : Int)).toNat = m * k := by
        rw [← Nat.cast_mul, Int.toNat_ofNat]
      rw [hmk]
      simp

/-- Witness for `pagination_spec`: two one-record pages, page size 1,
covering a two-record collection with no search filter. -/
theorem pagination_spec_witness :
    (∀ page : Int, 1 ≤ page →
      list_transactions
          [⟨1, "a", 1, "d", "c", "i", true, ⟨2023, 1, 1⟩⟩,
           ⟨2, "b", 2, "d", "c", "i", false, ⟨2023, 1, 2⟩⟩] none page 1 =
        Except.ok
          (([⟨1, "a", 1, "d", "c", "i", true, ⟨2023, 1, 1⟩⟩,
             ⟨2, "b", 2, "d", "c", "i", false, ⟨2023, 1, 2⟩⟩].drop
              (((page - 1) * 1).toNat)).take (1:Int).toNat)) ∧
    (∀ page : Int, ∀ r : List Transaction,
      list_transactions
          [⟨1, "a", 1, "d", "c", "i", true, ⟨2023, 1, 1⟩⟩,
           ⟨2, "b", 2, "d", "c", "i", false, ⟨2023, 1, 2⟩⟩] none page 1 =
        Except.ok r → r.length ≤ (1:Int).toNat) ∧
    ∃ pages : List (List Transaction), pages.length = 2 ∧
      (∀ j : Nat, (hj : j < pages.length) →
        list_transactions
            [⟨1, "a", 1, "d", "c", "i", true, ⟨2023, 1, 1⟩⟩,
             ⟨2, "b", 2, "d", "c", "i", false, ⟨2023, 1, 2⟩⟩] none ((j : Int) + 1) 1 =
          Except.ok (pages.get ⟨j, hj⟩)) ∧
      ∃ big, list_transactions
          [⟨1, "a", 1, "d", "c", "i", true, ⟨2023, 1, 1⟩⟩,
           ⟨2, "b", 2, "d", "c", "i", false, ⟨2023, 1, 2⟩⟩] none 1 (1 * ((2:Nat) : Int)) =
        Except.ok big ∧ pages.flatten = big :=
  pagination_spec
    [⟨1, "a", 1, "d", "c", "i", true, ⟨2023, 1, 1⟩⟩,
     ⟨2, "b", 2, "d", "c", "i", false, ⟨2023, 1, 2⟩⟩]
    none _ 1 2 (by norm_num) rfl

lemma get_bar_chart_eq (coll : List Transaction) (month year : Int)
    (s e : DateTime) (hmr : monthRange month year = Except.ok (s, e)) :
    get_bar_chart coll month year = Except.ok
      ((bucketRanges.filterMap fun r =>
          if ((coll.filter (soldInRange s e)).filter fun t => inBucket t.price r).length = 0
          then none
          else some ⟨BucketId.num r.1,
            ((coll.filter (soldInRange s e)).filter fun t => inBucket t.price r).length⟩) ++
        if ((coll.filter (soldInRange s e)).filter fun t =>
              bucketRanges.all fun r => !inBucket t.price r).length = 0 then []
        else [⟨BucketId.other,
          ((coll.filter (soldInRange s e)).filter fun t =>
            bucketRanges.all fun r => !inBucket t.price r).length⟩]) := by
  unfold get_bar_chart
  rw [hmr]

lemma bucket_unique (p : Rat) (hp : 0 ≤ p) :
    (bucketRanges.countP fun r => inBucket p r) = 1 := by
  rcases lt_or_le p 100 with h1 | h1
  · have n2 : ¬((100:Rat) ≤ p) := by linarith
    have n3 : ¬((200:Rat) ≤ p) := by linarith
    have n4 : ¬((300:Rat) ≤ p) := by linarith
    have n5 : ¬((400:Rat) ≤ p) := by linarith
    have n6 : ¬((500:Rat) ≤ p) := by linarith
    have n7 : ¬((600:Rat) ≤ p) := by linarith
    have n8 : ¬((700:Rat) ≤ p) := by linarith
    have n9 : ¬((800:Rat) ≤ p) := by linarith
    have n10 : ¬((900:Rat) ≤ p) := by linarith
    simp [bucketRanges, List.countP_cons, inBucket, hp, h1, n2, n3, n4, n5, n6,
      n7, n8, n9, n10]
  rcases lt_or_le p 200 with h2 | h2
  · have m1 : ¬(p < 100) := by linarith
    have n3 : ¬((200:Rat) ≤ p) := by linarith
    have n4 : ¬((300:Rat) ≤ p) := by linarith
    have n5 : ¬((400:Rat) ≤ p) := by linarith
    have n6 : ¬((500:Rat) ≤ p) := by linarith
    have n7 : ¬((600:Rat) ≤ p) := by linarith
    have n8 : ¬((700:Rat) ≤ p) := by linarith
    have n9 : ¬((800:Rat) ≤ p) := by linarith
    have n10 : ¬((900:Rat) ≤ p) := by linarith
    simp [bucketRanges, List.countP_cons, inBucket, h1, h2, m1, n3, n4, n5, n6,
      n7, n8, n9, n10]
  rcases lt_or_le p 300 with h3 | h3
  · have m1 : ¬(p < 100) := by linarith
    have m2 : ¬(p < 200) := by linarith
    have n4 : ¬((300:Rat) ≤ p) := by linarith
    have n5 : ¬((400:Rat) ≤ p) := by linarith
    have n6 : ¬((500:Rat) ≤ p) := by linarith
    have n7 : ¬((600:Rat) ≤ p) := by linarith
    have n8 : ¬((700:Rat) ≤ p) := by linarith
    have n9 : ¬((800:Rat) ≤ p) := by linarith
    have n10 : ¬((900:Rat) ≤ p) := by linarith
    simp [bucketRanges, List.countP_cons, inBucket, h2, h3, m1, m2, n4, n5, n6,
      n7, n8, n9, n10]
  rcases lt_or_le p 400 with h4 | h4
  · have m1 : ¬(p < 100) := by linarith
    have m2 : ¬(p < 200) := by linarith
    have m3 : ¬(p < 300) := by linarith
    have n5 : ¬((400:Rat) ≤ p) := by linarith
    have n6 : ¬((500:Rat) ≤ p) := by linarith
    have n7 : ¬((600:Rat) ≤ p) := by linarith
    have n8 : ¬((700:Rat) ≤ p) := by linarith
    have n9 : ¬((800:Rat) ≤ p) := by linarith
    have n10 : ¬((900:Rat) ≤ p) := by linarith
    simp [bucketRanges, List.countP_cons, inBucket, h3, h4, m1, m2, m3, n5, n6,
      n7, n8, n9, n10]
  rcases lt_or_le p 500 with h5 | h5
  · have m1 : ¬(p < 100) := by linarith
    have m2 : ¬(p < 200) := by linarith
    have m3 : ¬(p < 300) := by linarith
    have m4 : ¬(p < 400) := by linarith
    have n6 : ¬((500:Rat) ≤ p) := by linarith
    have n7 : ¬((600:Rat) ≤ p) := by linarith
    have n8 : ¬((700:Rat) ≤ p) := by linarith
    have n9 : ¬((800:Rat) ≤ p) := by linarith
    have n10 : ¬((900:Rat) ≤ p) := by linarith
    simp [bucketRanges, List.countP_cons, inBucket, h4, h5, m1, m2, m3, m4, n6,
      n7, n8, n9, n10]
  rcases lt_or_le p 600 with h6 | h6
  · have m1 : ¬(p < 100) := by linarith
    have m2 : ¬(p < 200) := by linarith
    have m3 : ¬(p < 300) := by linarith
    have m4 : ¬(p < 400) := by linarith
    have m5 : ¬(p < 500) := by linarith
    have n7 : ¬((600:Rat) ≤ p) := by linarith
    have n8 : ¬((700:Rat) ≤ p) := by linarith
    have n9 : ¬((800:Rat) ≤ p) := by linarith
    have n10 : ¬((900:Rat) ≤ p) := by linarith
    simp [bucketRanges, List.countP_cons, inBucket, h5, h6, m1, m2, m3, m4, m5,
      n7, n8, n9, n10]
  rcases lt_or_le p 700 with h7 | h7
  · have m1 : ¬(p < 100) := by linarith
    have m2 : ¬(p < 200) := by linarith
    have m3 : ¬(p < 300) := by linarith
    have m4 : ¬(p < 400) := by linarith
    have m5 : ¬(p < 500) := by linarith
    have m6 : ¬(p < 600) := by linarith
    have n8 : ¬((700:Rat) ≤ p) := by linarith
    have n9 : ¬((800:Rat) ≤ p) := by linarith
    have n10 : ¬((900:Rat) ≤ p) := by linarith
    simp [bucketRanges, List.countP_cons, inBucket, h6, h7, m1, m2, m3, m4, m5,
      m6, n8, n9, n10]
  rcases lt_or_le p 800 with h8 | h8
  · have m1 : ¬(p < 100) := by linarith
    have m2 : ¬(p < 200) := by linarith
    have m3 : ¬(p < 300) := by linarith
    have m4 : ¬(p < 400) := by linarith
    have m5 : ¬(p < 500) := by linarith
    have m6 : ¬(p < 600) := by linarith
    have m7 : ¬(p < 700) := by linarith
    have n9 : ¬((800:Rat) ≤ p) := by linarith
    have n10 : ¬((900:Rat) ≤ p) := by linarith
    simp [bucketRanges, List.countP_cons, inBucket, h7, h8, m1, m2, m3, m4, m5,
      m6, m7, n9, n10]
  rcases lt_or_le p 900 with h9 | h9
  · have m1 : ¬(p < 100) := by linarith
    have m2 : ¬(p < 200) := by linarith
    have m3 : ¬(p < 300) := by linarith
    have m4 : ¬(p < 400) := by linarith
    have m5 : ¬(p < 500) := by linarith
    have m6 : ¬(p < 600) := by linarith
    have m7 : ¬(p < 700) := by linarith
    have m8 : ¬(p < 800) := by linarith
    have n10 : ¬((900:Rat) ≤ p) := by linarith
    simp [bucketRanges, List.countP_cons, inBucket, h8, h9, m1, m2, m3, m4, m5,
      m6, m7, m8, n10]
  · have m1 : ¬(p < 100) := by linarith
    have m2 : ¬(p < 200) := by linarith
    have m3 : ¬(p < 300) := by linarith
    have m4 : ¬(p < 400) := by linarith
    have m5 : ¬(p < 500) := by linarith
    have m6 : ¬(p < 600) := by linarith
    have m7 : ¬(p < 700) := by linarith
    have m8 : ¬(p < 800) := by linarith
    have m9 : ¬(p < 900) := by linarith
    simp [bucketRanges, List.countP_cons, inBucket, h9, m1, m2, m3, m4, m5, m6,
      m7, m8, m9]

lemma inBucket_neg (p : Rat) (hp : p < 0) : ∀ r ∈ bucketRanges, inBucket p r = false := by
  intro r hr
  have h0 : (0:Rat) ≤ r.1 := by
    fin_cases hr <;> norm_num
  have hle : ¬(r.1 ≤ p) := fun hle => absurd (le_trans h0 hle) (not_le.mpr hp)
  simp [inBucket, hle]

lemma bucket_partition (p : Rat) :
    (bucketRanges.countP fun r => inBucket p r) +
      (if (bucketRanges.all fun r => !inBucket p r) = true then 1 else 0) = 1 := by
  rcases le_or_lt 0 p with hp | hp
  · have hone : (bucketRanges.countP fun r => inBucket p r) = 1 := bucket_unique p hp
    rw [hone]
    have hpos : 0 < bucketRanges.countP fun r => inBucket p r := by
      rw [hone]
      norm_num
    obtain ⟨r, hr, hpr⟩ := List.countP_pos_iff.mp hpos
    have hall : (bucketRanges.all fun r => !inBucket p r) = false :=
      List.all_eq_false.mpr ⟨r, hr, by simp [hpr]⟩
    rw [hall]
    simp
  · have h0 := inBucket_neg p hp
    have hc : (bucketRanges.countP fun r => inBucket p r) = 0 :=
      List.countP_eq_zero.mpr fun r hr => by simp [h0 r hr]
    have ha : (bucketRanges.all fun r => !inBucket p r) = true :=
      List.all_eq_true.mpr fun r hr => by simp [h0 r hr]
    rw [hc, ha]
    simp

lemma sum_map_zero {α : Type} (L : List α) : (L.map fun _ => (0:Nat)).sum = 0 := by
  induction L with
  | nil => rfl
  | cons a l ih => simp [ih]

lemma sum_map_one {α : Type} (L : List α) : (L.map fun _ => (1:Nat)).sum = L.length := by
  induction L with
  | nil => rfl
  | cons a l ih =>
    simp only [List.map_cons, List.sum_cons, List.length_cons, ih]
    omega

lemma sum_map_add_nat {α : Type} (L : List α) (f g : α → Nat) :
    (L.map fun t => f t + g t).sum = (L.map f).sum + (L.map g).sum := by
  induction L with
  | nil => rfl
  | cons a l ih =>
    simp only [List.map_cons, List.sum_cons, ih]
    omega

lemma sum_map_ite {α : Type} (L : List α) (q : α → Bool) :
    (L.map fun t => if q t = true then 1 else 0).sum = L.countP q := by
  induction L with
  | nil => rfl
  | cons a l ih =>
    simp only [List.map_cons, List.sum_cons, List.countP_cons, ih]
    omega

lemma sum_counts_swap (R : List (Rat × Option Rat)) (L : List Transaction)
    (q : Transaction → Rat × Option Rat → Bool) :
    (R.map fun r => L.countP fun t => q t r).sum
      = (L.map fun t => R.countP fun r => q t r).sum := by
  induction R with
  | nil =>
    simp only [List.map_nil, List.sum_nil, List.countP_nil]
    exact (sum_map_zero L).symm
  | cons r R ih =>
    simp only [List.map_cons, List.sum_cons, ih]
    have hsplit : (L.map fun t => (r :: R).countP fun x => q t x).sum
        = (L.map fun t => (R.countP fun x => q t x) + if q t r = true then 1 else 0).sum := by
      refine congrArg List.sum (List.map_congr_left fun t ht => ?_)
      rw [List.countP_cons]
    rw [hsplit,
      sum_map_add_nat L (fun t => R.countP fun x => q t x)
        (fun t => if q t r = true then 1 else 0),
      sum_map_ite L (fun t => q t r)]
    omega

lemma sum_filterMap_counts (R : List (Rat × Option Rat))
    (c : Rat × Option Rat → Nat) :
    ((R.filterMap fun r => if c r = 0 then none
        else some (⟨BucketId.num r.1, c r⟩ : BarEntry)).map BarEntry.count).sum
      = (R.map c).sum := by
  induction R with
  | nil => rfl
  | cons a R ih =>
    by_cases h : c a = 0
    · simp [List.filterMap_cons, h, ih]
    · simp [List.filterMap_cons, h, ih]

/-- C5 counterexample: a sold January-2023 record with price -1 lies in
the month interval but falls in none of the ten fixed buckets (Mongo's
`$bucket` sends it to the default "Other" group), refuting the claim that
every sold record of the interval falls into exactly one fixed bucket. -/
theorem bar_bucket_counterexample :
    get_bar_chart [⟨1, "a", -1, "d", "c", "i", true, ⟨2023, 1, 15⟩⟩] 1 2023 =
      Except.ok [⟨BucketId.other, 1⟩] ∧
    (bucketRanges.countP fun r => inBucket (-1 : Rat) r) = 0 := by
  constructor
  · rfl
  · rfl

/-- C5 amended: for a valid month, every sold record of the interval with
non-negative price falls into exactly one of the ten fixed buckets (a
negative price falls into none of them and is collected by the default
"Other" group), and the sum of the counts returned by the bar chart —
fixed buckets plus the default group — equals `total_items_sold` from the
statistics endpoint. -/
theorem bar_chart_amended (coll : List Transaction) (month year : Int)
    (h1 : 1 ≤ month) (h2 : month ≤ 12) :
    ∃ s e entries st,
      monthRange month year = Except.ok (s, e) ∧
      get_bar_chart coll month year = Except.ok entries ∧
      get_statistics coll month year = Except.ok st ∧
      (entries.map BarEntry.count).sum = st.total_items_sold ∧
      ∀ t ∈ coll.filter (soldInRange s e), 0 ≤ t.price →
        (bucketRanges.countP fun r => inBucket t.price r) = 1 := by
  have hmr := monthRange_eq month year h1 h2
  refine ⟨⟨year, month, 1⟩,
    if month = 12 then ⟨year + 1, 1, 1⟩ else ⟨year, month + 1, 1⟩, _, _,
    hmr, get_bar_chart_eq coll month year _ _ hmr,
    get_statistics_eq coll month year _ _ hmr, ?_, ?_⟩
  · set s : DateTime := ⟨year, month, 1⟩ with hsdef
    set e : DateTime :=
      if month = 12 then ⟨year + 1, 1, 1⟩ else ⟨year, month + 1, 1⟩ with hedef
    set matched : List Transaction := coll.filter (soldInRange s e) with hmdef
    rw [List.map_append, List.sum_append]
    rw [sum_filterMap_counts bucketRanges
      (fun r => (matched.filter fun t => inBucket t.price r).length)]
    have hlen : (bucketRanges.map fun r => (matched.filter fun t => inBucket t.price r).length)
        = bucketRanges.map fun r => matched.countP fun t => inBucket t.price r := by
      refine List.map_congr_left fun r hr => ?_
      rw [← List.countP_eq_length_filter]
    rw [hlen, sum_counts_swap bucketRanges matched (fun t r => inBucket t.price r)]
    have hother : ((if (matched.filter fun t =>
            bucketRanges.all fun r => !inBucket t.price r).length = 0
          then ([] : List BarEntry)
          else [⟨BucketId.other, (matched.filter fun t =>
            bucketRanges.all fun r => !inBucket t.price r).length⟩]).map BarEntry.count).sum
        = matched.countP fun t => bucketRanges.all fun r => !inBucket t.price r := by
      by_cases h0 : (matched.filter fun t =>
          bucketRanges.all fun r => !inBucket t.price r).length = 0
      · rw [if_pos h0]
        rw [List.countP_eq_length_filter, h0]
        rfl
      · rw [if_neg h0]
        rw [List.countP_eq_length_filter]
        simp
    rw [hother]
    rw [(sum_map_ite matched
      (fun t => bucketRanges.all fun r => !inBucket t.price r)).symm]
    rw [← sum_map_add_nat]
    have hone : (matched.map fun t =>
        (bucketRanges.countP fun r => inBucket t.price r) +
          (if (bucketRanges.all fun r => !inBucket t.price r) = true then 1 else 0))
        = matched.map fun _ => 1 :=
      List.map_congr_left fun t ht => bucket_partition t.price
    rw [hone, sum_map_one]
    rw [List.countP_eq_length_filter, ← hmdef]
  · intro t ht hp
    exact bucket_unique t.price hp

/-- Witness for `bar_chart_amended`: one sold January-2023 record of
price 50, queried at month 1 of 2023. -/
theorem bar_chart_amended_witness :
    ∃ s e entries st,
      monthRange 1 2023 = Except.ok (s, e) ∧
      get_bar_chart [⟨1, "a", 50, "d", "c", "i", true, ⟨2023, 1, 15⟩⟩] 1 2023 =
        Except.ok entries ∧
      get_statistics [⟨1, "a", 50, "d", "c", "i", true, ⟨2023, 1, 15⟩⟩] 1 2023 =
        Except.ok st ∧
      (entries.map BarEntry.count).sum = st.total_items_sold ∧
      ∀ t ∈ [⟨1, "a", 50, "d", "c", "i", true, ⟨2023, 1, 15⟩⟩].filter (soldInRange s e),
        0 ≤ t.price → (bucketRanges.countP fun r => inBucket t.price r) = 1 :=
  bar_chart_amended [⟨1, "a", 50, "d", "c", "i", true, ⟨2023, 1, 15⟩⟩] 1 2023
    (by norm_num) (by norm_num)

end App
